import Mathlib

/-!
# Verification of the GeneralPurposeSlime Discord bot (src/main.rs)

Shallow embedding of the single Rust source file.  External effects
(environment variables, the serenity client library's network calls) are
modelled as oracles packaged in a `World`; `main` returns an explicit trace
of its observable behaviour (result value, log events, client-construction
and event-loop-start attempts).  The event handler callbacks are pure
functions from the incoming event and the outcome of the outbound send call
to the effects they perform.
-/

/-- An apostrophe character, used in log-message literals. -/
def apos : String := (Char.ofNat 39).toString

/-- `std::env::VarError` (main.rs line 2): the two ways reading an
environment variable can fail. -/
inductive VarError where
  | NotPresent : VarError
  | NotUnicode : String → VarError
deriving DecidableEq, Repr

/-- Debug rendering of a `VarError`, used in the `error!` log line. -/
def VarError.debugFmt : VarError → String
  | .NotPresent => "NotPresent"
  | .NotUnicode s => "NotUnicode(" ++ s ++ ")"

/-- `serenity::Error` (main.rs line 11), kept opaque: only its debug
rendering is observable to this program. -/
structure SerenityError where
  info : String
deriving DecidableEq, Repr

/-- `SlimeError` (main.rs lines 45-48): the two-variant error enum returned
by `main`. -/
inductive SlimeError where
  | Var : VarError → SlimeError
  | Serenity : SerenityError → SlimeError
deriving DecidableEq, Repr

/-- `tracing::Level` (main.rs line 9). -/
inductive Level where
  | TRACE | DEBUG | INFO | WARN | ERROR
deriving DecidableEq, Repr

/-- Verbosity rank of a level: higher means more verbose. -/
def levelNo : Level → Nat
  | .ERROR => 1
  | .WARN => 2
  | .INFO => 3
  | .DEBUG => 4
  | .TRACE => 5

/-- A log event at a given level is emitted when its verbosity does not
exceed the subscriber's maximum level (`with_max_level`, main.rs line 125). -/
def levelEnabled (maxLevel : Level) (l : Level) : Bool :=
  levelNo l ≤ levelNo maxLevel

/-- `serenity::model::channel::Message` (main.rs line 6), restricted to the
fields this program reads: the text body and the channel identifier. -/
structure Message where
  content : String
  channel_id : Nat
deriving DecidableEq, Repr

/-- The current-user part of the `Ready` payload (main.rs line 41 reads
`ready.user.name`). -/
structure User where
  name : String
deriving DecidableEq, Repr

/-- `serenity::model::gateway::Ready` (main.rs line 7), restricted to the
field this program reads. -/
structure Ready where
  user : User
deriving DecidableEq, Repr

/-- `struct Handler;` (main.rs line 13): a unit struct carrying no state. -/
structure Handler where
deriving DecidableEq, Repr

/-- Observable effects of one invocation of `Handler::message`: the
outbound `say` calls it issues (channel id and body) and the lines it
prints to stdout. -/
structure MessageEffects where
  sends : List (Nat × String)
  stdout : List String
deriving DecidableEq, Repr

/-- `Handler::message` (main.rs lines 22-32).  `say` is the outcome the
network oracle would return for the `msg.channel_id.say(&ctx.http, "Pong!")`
call, consulted only if the call is issued.  The function always returns;
a send failure is logged to stdout and discarded. -/
def Handler.message (_h : Handler) (say : Except SerenityError Unit)
    (msg : Message) : MessageEffects :=
  if msg.content = "!ping" then
    { sends := [(msg.channel_id, "Pong!")]
      stdout :=
        match say with
        | .error why => ["Error sending message: " ++ why.info]
        | .ok _ => [] }
  else
    { sends := [], stdout := [] }

/-- `Handler::ready` (main.rs lines 40-42): prints one line to stdout. -/
def Handler.ready (_h : Handler) (rd : Ready) : List String :=
  [rd.user.name ++ " is connected!"]

/-- The client library dispatches each delivered message event to the
handler independently: one handler invocation per event, each with its own
send-outcome oracle. -/
def processEvents (h : Handler)
    (events : List (Except SerenityError Unit × Message)) :
    List MessageEffects :=
  events.map (fun e => Handler.message h e.1 e.2)

/-- `GatewayIntents::GUILD_MESSAGES` bit flag. -/
def GUILD_MESSAGES : Nat := 2 ^ 9

/-- `GatewayIntents::DIRECT_MESSAGES` bit flag. -/
def DIRECT_MESSAGES : Nat := 2 ^ 12

/-- `GatewayIntents::MESSAGE_CONTENT` bit flag. -/
def MESSAGE_CONTENT : Nat := 2 ^ 15

/-- The intent set computed at main.rs lines 95-97. -/
def intents : Nat := GUILD_MESSAGES ||| DIRECT_MESSAGES ||| MESSAGE_CONTENT

/-- The serenity `Client`, restricted to what this program configures:
the token, the intents, and the registered event handler, if any. -/
structure Client where
  token : String
  intents : Nat
  event_handler : Option Handler
deriving DecidableEq, Repr

/-- The client produced by the builder chain at main.rs lines 101-103.
The chain is `Client::builder(&token, intents)` alone: the
`.event_handler(Handler)` call on line 102 is commented out in the source,
so the built client has no registered event handler. -/
def buildClient (token : String) (intents : Nat) : Client :=
  { token := token, intents := intents, event_handler := none }

/-- Oracles for the external effects `main` performs: the value of the
`DISCORD_TOKEN` environment variable, the outcome of client construction
for a given token and intent set, and the outcome of `client.start()`. -/
structure World where
  discord_token : Except VarError String
  client_build : String → Nat → Except SerenityError Unit
  client_start : Except SerenityError Unit

/-- The observable trace of one run of `main`: its returned value, the raw
log events it issued (before level filtering), the client-construction
attempts (token and intents handed to `Client::builder`), the client bound
on successful construction, and the client `start()` was invoked on. -/
structure MainTrace where
  result : Except SlimeError Unit
  raw_logs : List (Level × String)
  build_attempts : List (String × Nat)
  built_client : Option Client
  started_client : Option Client
deriving Repr

/-- The subscriber's maximum level (main.rs lines 73-77): `DEBUG` when
compiled with debug assertions, `INFO` otherwise. -/
def logLevel (debug_assertions : Bool) : Level :=
  if debug_assertions then Level.DEBUG else Level.INFO

/-- `main` (main.rs lines 72-120), as a function of the compilation mode
and the external-effect oracles, returning its observable trace. -/
def mainRun (debug_assertions : Bool) (w : World) : MainTrace :=
  let _level := logLevel debug_assertions
  let l0 : List (Level × String) :=
    [(Level.TRACE, "Beginning everything. Now retrieving the DISCORD_TOKEN...")]
  match w.discord_token with
  | .error l_error =>
    { result := .error (SlimeError.Var l_error)
      raw_logs := l0 ++
        [(Level.ERROR, "Couldn" ++ apos ++ "t retrieve the token: " ++ l_error.debugFmt)]
      build_attempts := []
      built_client := none
      started_client := none }
  | .ok token =>
    let l1 := l0 ++ [(Level.DEBUG, "Here" ++ apos ++ "s your token: " ++ token)]
    let l2 := l1 ++ [(Level.TRACE, "Intent selected: " ++ toString intents)]
    match w.client_build token intents with
    | .error l_error =>
      { result := .error (SlimeError.Serenity l_error)
        raw_logs := l2 ++
          [(Level.ERROR, "Error occurred while creating client: " ++ l_error.info)]
        build_attempts := [(token, intents)]
        built_client := none
        started_client := none }
    | .ok _ =>
      let client := buildClient token intents
      match w.client_start with
      | .error why =>
        { result := .ok ()
          raw_logs := l2 ++ [(Level.ERROR, "Client error: " ++ why.info)]
          build_attempts := [(token, intents)]
          built_client := some client
          started_client := some client }
      | .ok _ =>
        { result := .ok ()
          raw_logs := l2
          build_attempts := [(token, intents)]
          built_client := some client
          started_client := some client }

/-- The log lines actually emitted by a run: the raw events filtered by the
subscriber's maximum level (`init_tracing`, main.rs lines 123-127). -/
def emittedLogs (debug_assertions : Bool) (w : World) : List (Level × String) :=
  (mainRun debug_assertions w).raw_logs.filter
    (fun p => levelEnabled (logLevel debug_assertions) p.1)

/-- A run where the token is present, client construction succeeds and the
event loop terminates cleanly. -/
def wTokenOkStartOk : World :=
  { discord_token := .ok "t0"
    client_build := fun _ _ => .ok ()
    client_start := .ok () }

/-- A run where the token is present, client construction succeeds and the
event loop later fails fatally. -/
def wTokenOkStartErr : World :=
  { discord_token := .ok "t0"
    client_build := fun _ _ => .ok ()
    client_start := .error (SerenityError.mk "boom") }

/-- A run where the `DISCORD_TOKEN` environment variable is absent. -/
def wTokenMissing : World :=
  { discord_token := .error VarError.NotPresent
    client_build := fun _ _ => .ok ()
    client_start := .ok () }

/-- A run where the token is present but client construction is rejected. -/
def wBuildErr : World :=
  { discord_token := .ok "t0"
    client_build := fun _ _ => .error (SerenityError.mk "badtoken")
    client_start := .ok () }

/-- C2: for every string delivered as message text, the handler issues the
reply "Pong!" to the originating channel if and only if the text equals
"!ping" exactly; for any other text it performs no action at all. -/
theorem message_replies_iff_ping (h : Handler) (say : Except SerenityError Unit)
    (msg : Message) :
    ((Handler.message h say msg).sends = [(msg.channel_id, "Pong!")]
      ↔ msg.content = "!ping")
    ∧ (msg.content ≠ "!ping" →
        Handler.message h say msg = { sends := [], stdout := [] }) := by
  constructor
  · constructor
    · intro hs
      by_contra hc
      simp [Handler.message, hc] at hs
    · intro hc
      simp [Handler.message, hc]
  · intro hc
    simp [Handler.message, hc]

/-- Witness for C2 at the concrete input "!pong" on channel 3. -/
theorem message_replies_iff_ping_witness :
    (((Handler.message Handler.mk (Except.ok ()) (Message.mk "!pong" 3)).sends
        = [(3, "Pong!")] ↔ ("!pong" : String) = "!ping")
     ∧ (("!pong" : String) ≠ "!ping" →
         Handler.message Handler.mk (Except.ok ()) (Message.mk "!pong" 3)
           = { sends := [], stdout := [] })) :=
  message_replies_iff_ping Handler.mk (Except.ok ()) (Message.mk "!pong" 3)

/-- C8: on the connection-ready event the handler emits exactly the line
"<display-name> is connected!", which contains the display name taken from
the ready payload. -/
theorem ready_logs_display_name (h : Handler) (rd : Ready) :
    Handler.ready h rd = [rd.user.name ++ " is connected!"]
    ∧ ∃ rest, Handler.ready h rd = [rd.user.name ++ rest] :=
  ⟨rfl, " is connected!", rfl⟩

/-- C10: `main` is total and every execution path terminates in `Ok` or in
one of the two `SlimeError` variants; no path panics or escapes. -/
theorem main_result_exhaustive (dbg : Bool) (w : World) :
    (mainRun dbg w).result = .ok ()
    ∨ (∃ e, (mainRun dbg w).result = .error (SlimeError.Var e))
    ∨ (∃ e, (mainRun dbg w).result = .error (SlimeError.Serenity e)) := by
  cases htok : w.discord_token with
  | error e =>
    right; left
    exact ⟨e, by simp [mainRun, htok]⟩
  | ok token =>
    cases hb : w.client_build token intents with
    | error e =>
      right; right
      exact ⟨e, by simp [mainRun, htok, hb]⟩
    | ok u =>
      left
      cases hs : w.client_start <;> simp [mainRun, htok, hb, hs]

/-- C3: if the event loop (`client.start`) returns an error after having
started, the error is logged (raw and emitted at every build level) but
`main` still returns `Ok(())`: the loop error never becomes the reported
error value. -/
theorem start_error_logged_but_ok (dbg : Bool) (w : World) (token : String)
    (htok : w.discord_token = .ok token)
    (hbuild : w.client_build token intents = .ok ())
    (e : SerenityError) (hstart : w.client_start = .error e) :
    (mainRun dbg w).result = .ok ()
    ∧ (Level.ERROR, "Client error: " ++ e.info) ∈ (mainRun dbg w).raw_logs
    ∧ (Level.ERROR, "Client error: " ++ e.info) ∈ emittedLogs dbg w := by
  refine ⟨?_, ?_, ?_⟩ <;>
    cases dbg <;>
      simp [mainRun, emittedLogs, htok, hbuild, hstart, levelEnabled, levelNo,
        logLevel, List.mem_filter]

/-- Witness for C3 on a concrete run whose event loop fails with "boom". -/
theorem start_error_logged_but_ok_witness :
    wTokenOkStartErr.discord_token = .ok "t0"
    ∧ wTokenOkStartErr.client_build "t0" intents = .ok ()
    ∧ wTokenOkStartErr.client_start = .error (SerenityError.mk "boom")
    ∧ ((mainRun false wTokenOkStartErr).result = .ok ()
       ∧ (Level.ERROR, "Client error: " ++ (SerenityError.mk "boom").info)
           ∈ (mainRun false wTokenOkStartErr).raw_logs
       ∧ (Level.ERROR, "Client error: " ++ (SerenityError.mk "boom").info)
           ∈ emittedLogs false wTokenOkStartErr) :=
  ⟨rfl, rfl, rfl,
    start_error_logged_but_ok false wTokenOkStartErr "t0" rfl rfl
      (SerenityError.mk "boom") rfl⟩

/-- C4: if `DISCORD_TOKEN` is absent or not valid text, `main` logs the
failure and returns `SlimeError.Var`; no client is ever constructed and no
construction or start attempt (hence no network activity) occurs. -/
theorem missing_token_fails_before_network (dbg : Bool) (w : World)
    (e : VarError) (htok : w.discord_token = .error e) :
    (mainRun dbg w).result = .error (SlimeError.Var e)
    ∧ (mainRun dbg w).build_attempts = []
    ∧ (mainRun dbg w).built_client = none
    ∧ (mainRun dbg w).started_client = none
    ∧ (Level.ERROR, "Couldn" ++ apos ++ "t retrieve the token: " ++ e.debugFmt)
        ∈ emittedLogs dbg w := by
  refine ⟨?_, ?_, ?_, ?_, ?_⟩ <;>
    cases dbg <;>
      simp [mainRun, emittedLogs, htok, levelEnabled, levelNo, logLevel,
        List.mem_filter]

/-- Witness for C4 on a concrete run with the variable unset. -/
theorem missing_token_fails_before_network_witness :
    wTokenMissing.discord_token = .error VarError.NotPresent
    ∧ ((mainRun true wTokenMissing).result
         = .error (SlimeError.Var VarError.NotPresent)
       ∧ (mainRun true wTokenMissing).build_attempts = []
       ∧ (mainRun true wTokenMissing).built_client = none
       ∧ (mainRun true wTokenMissing).started_client = none
       ∧ (Level.ERROR, "Couldn" ++ apos ++ "t retrieve the token: "
             ++ VarError.NotPresent.debugFmt) ∈ emittedLogs true wTokenMissing) :=
  ⟨rfl, missing_token_fails_before_network true wTokenMissing
    VarError.NotPresent rfl⟩

/-- C5: if client construction fails, `main` logs the failure and returns
`SlimeError.Serenity`; the event loop is never started. -/
theorem build_failure_never_starts (dbg : Bool) (w : World) (token : String)
    (e : SerenityError) (htok : w.discord_token = .ok token)
    (hbuild : w.client_build token intents = .error e) :
    (mainRun dbg w).result = .error (SlimeError.Serenity e)
    ∧ (mainRun dbg w).started_client = none
    ∧ (mainRun dbg w).built_client = none
    ∧ (Level.ERROR, "Error occurred while creating client: " ++ e.info)
        ∈ emittedLogs dbg w := by
  refine ⟨?_, ?_, ?_, ?_⟩ <;>
    cases dbg <;>
      simp [mainRun, emittedLogs, htok, hbuild, levelEnabled, levelNo,
        logLevel, List.mem_filter]

/-- Witness for C5 on a concrete run whose construction is rejected. -/
theorem build_failure_never_starts_witness :
    wBuildErr.discord_token = .ok "t0"
    ∧ wBuildErr.client_build "t0" intents = .error (SerenityError.mk "badtoken")
    ∧ ((mainRun true wBuildErr).result
         = .error (SlimeError.Serenity (SerenityError.mk "badtoken"))
       ∧ (mainRun true wBuildErr).started_client = none
       ∧ (mainRun true wBuildErr).built_client = none
       ∧ (Level.ERROR, "Error occurred while creating client: "
             ++ (SerenityError.mk "badtoken").info) ∈ emittedLogs true wBuildErr) :=
  ⟨rfl, rfl, build_failure_never_starts true wBuildErr "t0"
    (SerenityError.mk "badtoken") rfl rfl⟩

/-- C6: a failed "Pong!" send is caught inside the message handler, logged
to stdout and discarded — the handler still returns its effects normally —
and the dispatch of every other event in a stream is unchanged by that
failure, so subsequent events are still handled. -/
theorem send_failure_isolated (h : Handler) (e : SerenityError) (msg : Message)
    (hping : msg.content = "!ping")
    (pre post : List (Except SerenityError Unit × Message)) :
    Handler.message h (.error e) msg =
      { sends := [(msg.channel_id, "Pong!")]
        stdout := ["Error sending message: " ++ e.info] }
    ∧ processEvents h (pre ++ (Except.error e, msg) :: post) =
        processEvents h pre
          ++ Handler.message h (.error e) msg :: processEvents h post := by
  constructor
  · simp [Handler.message, hping]
  · simp [processEvents]

/-- Witness for C6: a failed send on channel 9 followed by another event on
channel 10 that is still processed. -/
theorem send_failure_isolated_witness :
    ("!ping" : String) = "!ping"
    ∧ (Handler.message Handler.mk (.error (SerenityError.mk "neterr"))
          (Message.mk "!ping" 9) =
        { sends := [(9, "Pong!")]
          stdout := ["Error sending message: " ++ (SerenityError.mk "neterr").info] }
       ∧ processEvents Handler.mk
           ([] ++ (Except.error (SerenityError.mk "neterr"), Message.mk "!ping" 9)
              :: [(Except.ok (), Message.mk "!ping" 10)]) =
          processEvents Handler.mk []
            ++ Handler.message Handler.mk (.error (SerenityError.mk "neterr"))
                 (Message.mk "!ping" 9)
              :: processEvents Handler.mk [(Except.ok (), Message.mk "!ping" 10)]) :=
  ⟨rfl, send_failure_isolated Handler.mk (SerenityError.mk "neterr")
    (Message.mk "!ping" 9) rfl [] [(Except.ok (), Message.mk "!ping" 10)]⟩

/-- C7: the handler object carries no state, so its behaviour does not
depend on which handler value is used, and two successive independent
"!ping" events each produce exactly one "Pong!" reply addressed to that
event's own originating channel, with no deduplication. -/
theorem handler_stateless_two_pings (h1 h2 : Handler)
    (r1 r2 : Except SerenityError Unit) (m1 m2 : Message)
    (hp1 : m1.content = "!ping") (hp2 : m2.content = "!ping") :
    Handler.message h1 r1 m1 = Handler.message h2 r1 m1
    ∧ (processEvents h1 [(r1, m1), (r2, m2)]).map MessageEffects.sends
        = [[(m1.channel_id, "Pong!")], [(m2.channel_id, "Pong!")]] := by
  constructor
  · cases h1; cases h2; rfl
  · simp [processEvents, Handler.message, hp1, hp2]

/-- Witness for C7: two "!ping" events on channels 1 and 2. -/
theorem handler_stateless_two_pings_witness :
    ("!ping" : String) = "!ping"
    ∧ (Handler.message Handler.mk (Except.ok ()) (Message.mk "!ping" 1)
         = Handler.message Handler.mk (Except.ok ()) (Message.mk "!ping" 1)
       ∧ (processEvents Handler.mk
            [(Except.ok (), Message.mk "!ping" 1),
             (Except.ok (), Message.mk "!ping" 2)]).map MessageEffects.sends
          = [[(1, "Pong!")], [(2, "Pong!")]]) :=
  ⟨rfl, handler_stateless_two_pings Handler.mk Handler.mk (Except.ok ())
    (Except.ok ()) (Message.mk "!ping" 1) (Message.mk "!ping" 2) rfl rfl⟩

/-- C9: on a successful token read the bootstrap writes the raw token to
the log at debug level; that line is emitted in a development build
(max level DEBUG), while in a production build (max level INFO) no
debug-level line — the token line in particular — is ever emitted. -/
theorem token_logged_debug_builds_only (w : World) (token : String)
    (htok : w.discord_token = .ok token) :
    (Level.DEBUG, "Here" ++ apos ++ "s your token: " ++ token)
        ∈ (mainRun true w).raw_logs
    ∧ (Level.DEBUG, "Here" ++ apos ++ "s your token: " ++ token)
        ∈ emittedLogs true w
    ∧ ∀ s, (Level.DEBUG, s) ∉ emittedLogs false w := by
  refine ⟨?_, ?_, ?_⟩
  · cases hb : w.client_build token intents <;>
      cases hs : w.client_start <;> simp [mainRun, htok, hb, hs]
  · cases hb : w.client_build token intents <;>
      cases hs : w.client_start <;>
        simp [mainRun, emittedLogs, htok, hb, hs, levelEnabled, levelNo,
          logLevel, List.mem_filter]
  · intro s hmem
    rw [emittedLogs, List.mem_filter] at hmem
    simp [levelEnabled, levelNo, logLevel] at hmem

/-- Witness for C9 on a concrete run with token "t0". -/
theorem token_logged_debug_builds_only_witness :
    wTokenOkStartOk.discord_token = .ok "t0"
    ∧ ((Level.DEBUG, "Here" ++ apos ++ "s your token: " ++ "t0")
          ∈ (mainRun true wTokenOkStartOk).raw_logs
       ∧ (Level.DEBUG, "Here" ++ apos ++ "s your token: " ++ "t0")
          ∈ emittedLogs true wTokenOkStartOk
       ∧ ∀ s, (Level.DEBUG, s) ∉ emittedLogs false wTokenOkStartOk) :=
  ⟨rfl, token_logged_debug_builds_only wTokenOkStartOk "t0" rfl⟩

/-- C1: contrary to the claim, the client is never handed the `Handler`
event handler: on every run the client passed to `start()` has no
registered event handler (the `.event_handler(Handler)` builder call is
commented out in the source), exhibited concretely on a successful run. -/
theorem started_client_has_no_handler (dbg : Bool) (w : World) :
    ((mainRun dbg w).started_client.map Client.event_handler = none
     ∨ (mainRun dbg w).started_client.map Client.event_handler = some none)
    ∧ (mainRun true wTokenOkStartOk).started_client
        = some (Client.mk "t0" intents none) := by
  constructor
  · cases htok : w.discord_token with
    | error e => left; simp [mainRun, htok]
    | ok token =>
      cases hb : w.client_build token intents with
      | error e => left; simp [mainRun, htok, hb]
      | ok u =>
        right
        cases hs : w.client_start <;>
          simp [mainRun, htok, hb, hs, buildClient]
  · rfl
